import Mathlib

/-!
# Verification of the Nifty500 Derived-Metrics & Multi-Factor Rating Engine

Shallow embedding of the pure core of `calc_derived_value.py` and
`calc_ratings.py`:

* `clean_numeric`  — the numeric sanitizer (`calc_derived_value.clean_numeric`);
* `compute_derived` — the derived-metrics calculator (`calc_derived_value.compute_derived`);
* `minmax_score`, `score_from_row` — the multi-factor scoring engine
  (`calc_ratings.minmax_score` / `calc_ratings.score_from_row`);
* `rank_entries` — the sort-and-rank step of `calc_ratings.main`.

Modelling conventions:

* Python floats are modelled as exact rationals (`ℚ`); `round(x, 2)` is
  modelled as round-half-to-even at two decimals (`round2`), which is
  Python's rounding mode on exactly-representable values.
* A Python value that may be `None`, a number, `float('nan')` or a string is
  modelled by `PyVal`.
* `float(s)` on a stripped string is modelled by `parseFloat`, covering the
  plain decimal fragment of Python's float grammar (optional sign, digits,
  optional fractional part); any other character makes the parse fail, as
  `float` raises `ValueError` there.
* Code that can raise a `TypeError` (string arithmetic in the scoring
  engine) returns `Except Unit`; `.error ()` marks an escaped exception.
-/

/-- Round-half-to-even to an integer, Python's `round(x)` on exact values. -/
def roundHalfEven (q : ℚ) : ℤ :=
  if q - (⌊q⌋ : ℚ) < 1/2 then ⌊q⌋
  else if 1/2 < q - (⌊q⌋ : ℚ) then ⌊q⌋ + 1
  else if ⌊q⌋ % 2 = 0 then ⌊q⌋ else ⌊q⌋ + 1

/-- Python's `round(x, 2)` on exact values. -/
def round2 (q : ℚ) : ℚ := (roundHalfEven (q * 100) : ℚ) / 100

/-- A raw Python value as it reaches the numeric pipeline: `None`, a (finite)
number, `float('nan')`, or a string. -/
inductive PyVal where
  | null
  | num (q : ℚ)
  | nan
  | str (s : String)
deriving DecidableEq, Repr

/-- Digit accumulator: parses a digit-only character list into a natural
number; fails on any non-digit. The empty list yields `some 0` (callers
guard against the all-empty case as Python `float` does). -/
def parseDigits (cs : List Char) : Option ℕ :=
  cs.foldl
    (fun acc c =>
      match acc with
      | some n => if c.isDigit then some (n * 10 + (c.toNat - Char.toNat '0')) else Option.none
      | Option.none => Option.none)
    (some 0)

/-- The decimal fragment of Python's `float(s)`: optional sign, then digits
with an optional `.` fractional part; at least one digit overall. Any other
shape fails (Python raises `ValueError`, caught by the sanitizer). -/
def parseFloat (cs : List Char) : Option ℚ :=
  let signRest : ℚ × List Char :=
    match cs with
    | '-' :: t => (-1, t)
    | '+' :: t => (1, t)
    | t => (1, t)
  let sign := signRest.1
  let rest := signRest.2
  let intDigits := rest.takeWhile Char.isDigit
  let afterInt := rest.dropWhile Char.isDigit
  match afterInt with
  | [] =>
      if intDigits.isEmpty then Option.none
      else match parseDigits intDigits with
        | some n => some (sign * n)
        | Option.none => Option.none
  | '.' :: fracTail =>
      let fracDigits := fracTail.takeWhile Char.isDigit
      let afterFrac := fracTail.dropWhile Char.isDigit
      if afterFrac.isEmpty && !(intDigits.isEmpty && fracDigits.isEmpty) then
        match parseDigits intDigits, parseDigits fracDigits with
        | some n, some f =>
            some (sign * ((n : ℚ) + (f : ℚ) / (10 : ℚ) ^ fracDigits.length))
        | _, _ => Option.none
      else Option.none
  | _ => Option.none

/-- Python `str.strip()`: drop leading and trailing whitespace. -/
def trimList (cs : List Char) : List Char :=
  ((cs.dropWhile Char.isWhitespace).reverse.dropWhile Char.isWhitespace).reverse

/-- `str(value).replace(",", "").replace("%", "").strip()`, at the character
level. -/
def stripChars (s : String) : List Char :=
  trimList (s.toList.filter (fun c => c ≠ ',' && c ≠ '%'))

/-- Default `max_value` of `clean_numeric`. -/
def MAX_VALUE : ℚ := 9999999999.99

/-- Clamp to `[-max_value, max_value]` then round to 2 decimals: the tail of
`clean_numeric` after a number has been obtained (`num > max_value` /
`num < -max_value` branches, then `round(num, 2)`). -/
def clampRound (q max_value : ℚ) : ℚ :=
  round2 (if q > max_value then max_value else if q < -max_value then -max_value else q)

/-- `calc_derived_value.clean_numeric(value, max_value)`.

`None → None`; numbers survive the `str`/`float` round trip unchanged;
`float('nan')` prints as `"nan"`, re-parses as NaN and is caught by the
`math.isnan` check; strings are stripped of `,`/`%`/outer whitespace, the
empty string gives `None`, a failed `float` parse raises `ValueError` which
the bare `except` turns into `None`. -/
def clean_numericM (value : PyVal) (max_value : ℚ) : Option ℚ :=
  match value with
  | PyVal.null => Option.none
  | PyVal.nan => Option.none
  | PyVal.num q => some (clampRound q max_value)
  | PyVal.str s =>
      let val_str := stripChars s
      if val_str = [] then Option.none
      else
        match parseFloat val_str with
        | some q => some (clampRound q max_value)
        | Option.none => Option.none

/-- `clean_numeric` at its default `max_value=9999999999.99`. -/
def clean_numeric (value : PyVal) : Option ℚ := clean_numericM value MAX_VALUE

/-! ## Basic facts about `round2` and `clean_numeric` -/

theorem roundHalfEven_intCast (n : ℤ) : roundHalfEven (n : ℚ) = n := by
  unfold roundHalfEven
  simp

theorem roundHalfEven_le {q : ℚ} {n : ℤ} (h : q ≤ (n : ℚ)) : roundHalfEven q ≤ n := by
  have hfl : ⌊q⌋ ≤ n := by
    have := Int.floor_le_floor h
    simpa using this
  have hlow : (⌊q⌋ : ℚ) ≤ q := Int.floor_le q
  unfold roundHalfEven
  split_ifs with h1 h2 h3
  · exact hfl
  all_goals
    have hlt : ⌊q⌋ < n := by
      rcases lt_or_eq_of_le hfl with hc | hc
      · exact hc
      · exfalso
        apply h1
        have : q - (⌊q⌋ : ℚ) ≤ 0 := by
          rw [hc]
          exact sub_nonpos.mpr h
        linarith
  all_goals omega

theorem le_roundHalfEven {q : ℚ} {n : ℤ} (h : (n : ℚ) ≤ q) : n ≤ roundHalfEven q := by
  have hfl : n ≤ ⌊q⌋ := Int.le_floor.mpr h
  unfold roundHalfEven
  split_ifs <;> omega

/-- `round2` is the identity on values with at most two decimal places. -/
theorem round2_eq_self {q : ℚ} {n : ℤ} (h : q * 100 = (n : ℚ)) : round2 q = q := by
  unfold round2
  rw [h, roundHalfEven_intCast, ← h]
  field_simp

theorem round2_le {q : ℚ} {n : ℤ} (h : q * 100 ≤ (n : ℚ)) : round2 q ≤ (n : ℚ) / 100 := by
  unfold round2
  have := roundHalfEven_le h
  have : ((roundHalfEven (q * 100) : ℤ) : ℚ) ≤ (n : ℚ) := by exact_mod_cast this
  linarith

theorem le_round2 {q : ℚ} {n : ℤ} (h : (n : ℚ) ≤ q * 100) : (n : ℚ) / 100 ≤ round2 q := by
  unfold round2
  have := le_roundHalfEven h
  have : (n : ℚ) ≤ ((roundHalfEven (q * 100) : ℤ) : ℚ) := by exact_mod_cast this
  linarith

theorem MAX_VALUE_eq : MAX_VALUE = ((999999999999 : ℤ) : ℚ) / 100 := by
  norm_num [MAX_VALUE]

theorem clampRound_big {q max_value : ℚ} (h : max_value < q) :
    clampRound q max_value = round2 max_value := by
  simp [clampRound, h]

theorem clampRound_small {q max_value : ℚ} (h : q < -max_value) (h2 : 0 ≤ max_value) :
    clampRound q max_value = round2 (-max_value) := by
  have h3 : ¬ q > max_value := by linarith
  simp [clampRound, h3, h]

theorem clampRound_mid {q max_value : ℚ} (h1 : -max_value ≤ q) (h2 : q ≤ max_value) :
    clampRound q max_value = round2 q := by
  have h3 : ¬ q > max_value := by linarith
  have h4 : ¬ q < -max_value := by linarith
  simp [clampRound, h3, h4]

theorem MAX_VALUE_100 : MAX_VALUE * 100 = ((999999999999 : ℤ) : ℚ) := by
  rw [MAX_VALUE_eq]; norm_num

/-- `round2` fixes the default bound. -/
theorem round2_MAX : round2 MAX_VALUE = MAX_VALUE :=
  round2_eq_self MAX_VALUE_100

theorem round2_neg_MAX : round2 (-MAX_VALUE) = -MAX_VALUE :=
  @round2_eq_self (-MAX_VALUE) (-999999999999) (by rw [MAX_VALUE_eq]; push_cast; ring)

/-- The sanitizer output at the default bound always lies in
`[-MAX_VALUE, MAX_VALUE]`. -/
theorem clampRound_bounds (q : ℚ) :
    -MAX_VALUE ≤ clampRound q MAX_VALUE ∧ clampRound q MAX_VALUE ≤ MAX_VALUE := by
  have hM : (0 : ℚ) ≤ MAX_VALUE := by rw [MAX_VALUE_eq]; norm_num
  rcases lt_trichotomy q MAX_VALUE with h | h | h
  · rcases lt_or_le q (-MAX_VALUE) with h2 | h2
    · rw [clampRound_small h2 hM, round2_neg_MAX]
      constructor <;> linarith
    · rw [clampRound_mid h2 (le_of_lt h)]
      constructor
      · have hq : ((-999999999999 : ℤ) : ℚ) ≤ q * 100 := by
          have : -MAX_VALUE * 100 ≤ q * 100 := by linarith
          calc ((-999999999999 : ℤ) : ℚ) = -(MAX_VALUE * 100) := by
                rw [MAX_VALUE_100]; push_cast; ring
            _ ≤ q * 100 := by linarith
        have := le_round2 hq
        calc -MAX_VALUE = ((-999999999999 : ℤ) : ℚ) / 100 := by
              rw [MAX_VALUE_eq]; push_cast; ring
          _ ≤ round2 q := this
      · have hq : q * 100 ≤ ((999999999999 : ℤ) : ℚ) := by
          rw [← MAX_VALUE_100]; linarith
        have := round2_le hq
        calc round2 q ≤ ((999999999999 : ℤ) : ℚ) / 100 := this
          _ = MAX_VALUE := MAX_VALUE_eq.symm
  · rw [clampRound_mid (by linarith) (le_of_eq h), h, round2_MAX]
    constructor <;> linarith
  · rw [clampRound_big h, round2_MAX]
    constructor <;> linarith

theorem clean_numeric_null : clean_numeric PyVal.null = Option.none := rfl

theorem clean_numeric_nan : clean_numeric PyVal.nan = Option.none := rfl

/-- A numeric input inside the default bound with at most two decimals passes
through the sanitizer unchanged. -/
theorem clean_numeric_num_id {q : ℚ} {n : ℤ} (hn : q * 100 = (n : ℚ))
    (h1 : -MAX_VALUE ≤ q) (h2 : q ≤ MAX_VALUE) :
    clean_numeric (PyVal.num q) = some q := by
  simp [clean_numeric, clean_numericM, clampRound_mid h1 h2, round2_eq_self hn]

/-! ## Derived Metrics Calculator (`calc_derived_value.compute_derived`) -/

/-- One `consolidated_master` row: every field `compute_derived` reads.
A missing key behaves like `None` (`dict.get`), so absence is `PyVal.null`. -/
structure RawRow where
  current_price : PyVal
  previous_close : PyVal
  price_3m_ago : PyVal
  price_6m_ago : PyVal
  price_12m_ago : PyVal
  fifty_two_week_high : PyVal
  fifty_two_week_low : PyVal
  market_cap : PyVal
  total_revenue : PyVal
  enterprise_value : PyVal
  ebitda : PyVal
  pe_ratio_trailing : PyVal
  gross_margin : PyVal
  operating_margin : PyVal
  net_income : PyVal
  earnings_per_share : PyVal
  eps_3m_ago : PyVal
  eps_6m_ago : PyVal
  eps_12m_ago : PyVal
  revenue_3m_ago : PyVal
  revenue_6m_ago : PyVal
  revenue_12m_ago : PyVal
  book_value_per_share : PyVal
  eps_growth : PyVal
  dividend_yield : PyVal
  beta : PyVal
  debt_to_equity : PyVal
  free_cash_flow : PyVal
  operating_cash_flow : PyVal
  analyst_target_price : PyVal
deriving DecidableEq, Repr

/-- The `derived` dict produced by `compute_derived`. -/
structure Derived where
  price_return_3m_pct : Option ℚ
  price_return_6m_pct : Option ℚ
  price_return_12m_pct : Option ℚ
  position_52w_pct : Option ℚ
  ytd_return_pct : Option ℚ
  market_cap_to_revenue : Option ℚ
  enterprise_value_to_ebitda : Option ℚ
  pe_discount_vs_sector : Option ℚ
  gross_margin_pct : Option ℚ
  operating_margin_pct : Option ℚ
  net_margin_pct : Option ℚ
  eps_growth_3m_pct : Option ℚ
  eps_growth_6m_pct : Option ℚ
  eps_growth_12m_pct : Option ℚ
  revenue_growth_3m_pct : Option ℚ
  revenue_growth_6m_pct : Option ℚ
  revenue_growth_12m_pct : Option ℚ
  book_to_price_ratio : Option ℚ
  peg_ratio : Option ℚ
  dividend_yield_pct : Option ℚ
  beta : Option ℚ
  debt_to_equity : Option ℚ
  free_cash_flow_margin : Option ℚ
  operating_cash_flow_margin : Option ℚ
  dividend_payout_ratio : Option ℚ
  upside_potential_pct : Option ℚ
deriving DecidableEq, Repr

/-- Python truthiness of a sanitized value: `None` and `0` are falsy. -/
def truthy : Option ℚ → Bool
  | Option.none => false
  | some q => q != 0

/-- `round(f(a, b), 2) if a and b else None`: the two-operand guard pattern
of `compute_derived`. `.getD 0` is only reached under the guard, which
forces both operands to be `some`. -/
def pyGuard2 (a b : Option ℚ) (f : ℚ → ℚ → ℚ) : Option ℚ :=
  if truthy a && truthy b then some (round2 (f (a.getD 0) (b.getD 0)))
  else Option.none

/-- `round(f(a, b), 2) if a and b and b != 0 else None`. -/
def pyGuard2z (a b : Option ℚ) (f : ℚ → ℚ → ℚ) : Option ℚ :=
  if truthy a && truthy b && !(b.getD 0 == 0) then
    some (round2 (f (a.getD 0) (b.getD 0)))
  else Option.none

/-- `round(f(cp, hi, lo), 2) if cp and hi and lo and (hi - lo) != 0 else
None`: the 52-week-position guard. -/
def pyGuard52 (cp hi lo : Option ℚ) (f : ℚ → ℚ → ℚ → ℚ) : Option ℚ :=
  if truthy cp && truthy hi && truthy lo && !(hi.getD 0 - lo.getD 0 == 0) then
    some (round2 (f (cp.getD 0) (hi.getD 0) (lo.getD 0)))
  else Option.none

/-- `calc_derived_value.compute_derived(row)`. -/
def compute_derived (row : RawRow) : Derived :=
  let cp := clean_numeric row.current_price
  let pc := clean_numeric row.previous_close
  let p3m := clean_numeric row.price_3m_ago
  let p6m := clean_numeric row.price_6m_ago
  let p12m := clean_numeric row.price_12m_ago
  let f52w_high := clean_numeric row.fifty_two_week_high
  let f52w_low := clean_numeric row.fifty_two_week_low
  let market_cap := clean_numeric row.market_cap
  let total_revenue := clean_numeric row.total_revenue
  let enterprise_value := clean_numeric row.enterprise_value
  let ebitda := clean_numeric row.ebitda
  let pe_ratio_trailing := clean_numeric row.pe_ratio_trailing
  -- `sector_pe = None  # You need to supply this value externally`
  let sector_pe : Option ℚ := Option.none
  let gross_margin := clean_numeric row.gross_margin
  let operating_margin := clean_numeric row.operating_margin
  let net_income := clean_numeric row.net_income
  let eps := clean_numeric row.earnings_per_share
  let eps_3m := clean_numeric row.eps_3m_ago
  let eps_6m := clean_numeric row.eps_6m_ago
  let eps_12m := clean_numeric row.eps_12m_ago
  let rev_3m := clean_numeric row.revenue_3m_ago
  let rev_6m := clean_numeric row.revenue_6m_ago
  let rev_12m := clean_numeric row.revenue_12m_ago
  let bvps := clean_numeric row.book_value_per_share
  let eps_growth := clean_numeric row.eps_growth
  let dividend_yield := clean_numeric row.dividend_yield
  let beta := clean_numeric row.beta
  let debt_to_equity := clean_numeric row.debt_to_equity
  let free_cash_flow := clean_numeric row.free_cash_flow
  let operating_cash_flow := clean_numeric row.operating_cash_flow
  let analyst_target := clean_numeric row.analyst_target_price
  { price_return_3m_pct := pyGuard2 cp p3m (fun c p => (c - p) / p * 100)
    price_return_6m_pct := pyGuard2 cp p6m (fun c p => (c - p) / p * 100)
    price_return_12m_pct := pyGuard2 cp p12m (fun c p => (c - p) / p * 100)
    position_52w_pct := pyGuard52 cp f52w_high f52w_low
      (fun c hi lo => (c - lo) / (hi - lo) * 100)
    ytd_return_pct := pyGuard2 cp pc (fun c p => (c - p) / p * 100)
    market_cap_to_revenue := pyGuard2 market_cap total_revenue (fun m t => m / t)
    enterprise_value_to_ebitda := pyGuard2 enterprise_value ebitda (fun e b => e / b)
    pe_discount_vs_sector := pyGuard2 pe_ratio_trailing sector_pe (fun p s => p - s)
    gross_margin_pct := gross_margin
    operating_margin_pct := operating_margin
    net_margin_pct := pyGuard2 net_income total_revenue (fun n t => n / t * 100)
    eps_growth_3m_pct := pyGuard2 eps eps_3m (fun e p => (e - p) / p * 100)
    eps_growth_6m_pct := pyGuard2 eps eps_6m (fun e p => (e - p) / p * 100)
    eps_growth_12m_pct := pyGuard2 eps eps_12m (fun e p => (e - p) / p * 100)
    revenue_growth_3m_pct := pyGuard2 total_revenue rev_3m (fun t p => (t - p) / p * 100)
    revenue_growth_6m_pct := pyGuard2 total_revenue rev_6m (fun t p => (t - p) / p * 100)
    revenue_growth_12m_pct := pyGuard2 total_revenue rev_12m (fun t p => (t - p) / p * 100)
    book_to_price_ratio := pyGuard2z bvps cp (fun b c => b / c)
    peg_ratio := pyGuard2z pe_ratio_trailing eps_growth (fun p e => p / e)
    dividend_yield_pct := dividend_yield
    beta := beta
    debt_to_equity := debt_to_equity
    free_cash_flow_margin := pyGuard2z free_cash_flow total_revenue (fun f t => f / t * 100)
    operating_cash_flow_margin := pyGuard2z operating_cash_flow total_revenue
      (fun o t => o / t * 100)
    dividend_payout_ratio := pyGuard2z dividend_yield eps (fun d e => d / e)
    upside_potential_pct := pyGuard2z analyst_target cp (fun a c => (a - c) / c * 100) }

theorem pyGuard2_pos {a b : Option ℚ} {x y : ℚ} (f : ℚ → ℚ → ℚ)
    (ha : a = some x) (hb : b = some y) (hx : x ≠ 0) (hy : y ≠ 0) :
    pyGuard2 a b f = some (round2 (f x y)) := by
  subst ha; subst hb
  simp [pyGuard2, truthy, hx, hy]

theorem pyGuard2_none_iff {a b : Option ℚ} (f : ℚ → ℚ → ℚ) :
    pyGuard2 a b f = Option.none ↔ ¬(truthy a = true ∧ truthy b = true) := by
  unfold pyGuard2
  split_ifs with h
  · simp_all
  · simp_all

theorem pyGuard2z_pos {a b : Option ℚ} {x y : ℚ} (f : ℚ → ℚ → ℚ)
    (ha : a = some x) (hb : b = some y) (hx : x ≠ 0) (hy : y ≠ 0) :
    pyGuard2z a b f = some (round2 (f x y)) := by
  subst ha; subst hb
  simp [pyGuard2z, truthy, hx, hy]

theorem pyGuard2z_none_iff {a b : Option ℚ} (f : ℚ → ℚ → ℚ) :
    pyGuard2z a b f = Option.none ↔
      ¬(truthy a = true ∧ truthy b = true ∧ b.getD 0 ≠ 0) := by
  unfold pyGuard2z
  split_ifs with h
  · simp only [Bool.and_eq_true, bne_iff_ne] at h
    simp_all
  · simp only [Bool.and_eq_true] at h
    constructor
    · intro _ hc
      apply h
      refine ⟨⟨hc.1, hc.2.1⟩, ?_⟩
      simpa using hc.2.2
    · intro _
      rfl

theorem pyGuard52_pos {cp hi lo : Option ℚ} {c h l : ℚ} (f : ℚ → ℚ → ℚ → ℚ)
    (hc : cp = some c) (hh : hi = some h) (hl : lo = some l)
    (hc0 : c ≠ 0) (hh0 : h ≠ 0) (hl0 : l ≠ 0) (hdiff : h - l ≠ 0) :
    pyGuard52 cp hi lo f = some (round2 (f c h l)) := by
  subst hc; subst hh; subst hl
  simp [pyGuard52, truthy, hc0, hh0, hl0, hdiff]

theorem pyGuard52_none_iff {cp hi lo : Option ℚ} (f : ℚ → ℚ → ℚ → ℚ) :
    pyGuard52 cp hi lo f = Option.none ↔
      ¬(truthy cp = true ∧ truthy hi = true ∧ truthy lo = true ∧
        hi.getD 0 - lo.getD 0 ≠ 0) := by
  unfold pyGuard52
  split_ifs with h
  · simp only [Bool.and_eq_true, bne_iff_ne] at h
    simp_all
  · simp only [Bool.and_eq_true] at h
    constructor
    · intro _ hc
      apply h
      refine ⟨⟨⟨hc.1, hc.2.1⟩, hc.2.2.1⟩, ?_⟩
      simpa using hc.2.2.2
    · intro _
      rfl

/-! ## Multi-Factor Scoring Engine (`calc_ratings.py`) -/

/-- `calc_ratings.minmax_score(value, min_val, max_val, invert)`.

The Python guard `value is None or min_val is None or max_val is None or
max_val == min_val` short-circuits to `0` in that order. Otherwise the code
computes `(value - min_val) / (max_val - min_val)`: on a number this is the
clamped min-max score; on a string the subtraction raises `TypeError`
(modelled `.error ()`); on NaN the score is NaN and Python's
`max(0, min(1, nan))` evaluates to `1` (two-argument `min`/`max` keep their
first argument when the comparison with NaN is false). -/
def minmax_score (value : PyVal) (min_val max_val : Option ℚ) (invert : Bool) :
    Except Unit ℚ :=
  match value with
  | PyVal.null => Except.ok 0
  | v =>
    match min_val with
    | Option.none => Except.ok 0
    | some lo =>
      match max_val with
      | Option.none => Except.ok 0
      | some hi =>
        if hi = lo then Except.ok 0
        else
          match v with
          | PyVal.num x =>
              let score := max 0 (min 1 ((x - lo) / (hi - lo)))
              Except.ok (if invert then 1 - score else score)
          | PyVal.nan => Except.ok (if invert then 1 - 1 else 1)
          | PyVal.str _ => Except.error ()
          | PyVal.null => Except.ok 0

/-- The `derived_master` row consumed by `score_from_row`: the fields the
scoring engine reads, raw from storage (`dict.get`), so each may be null, a
number, or malformed text. -/
structure ScoreRow where
  price_return_12m_pct : PyVal
  position_52w_pct : PyVal
  price_return_3m_pct : PyVal
  gross_margin_pct : PyVal
  operating_margin_pct : PyVal
  net_margin_pct : PyVal
  peg_ratio : PyVal
  dividend_yield_pct : PyVal
  eps_growth_12m_pct : PyVal
  revenue_growth_12m_pct : PyVal
  debt_to_equity : PyVal
  beta : PyVal
  free_cash_flow_margin : PyVal
  operating_cash_flow_margin : PyVal
deriving DecidableEq, Repr

/-- The `scores` dict returned by `score_from_row`. -/
structure Scores where
  momentum_score : ℚ
  quality_score : ℚ
  valuation_score : ℚ
  growth_score : ℚ
  financial_stability_score : ℚ
  cash_flow_score : ℚ
  composite_score : ℚ
  rating : String
  action : String
deriving DecidableEq, Repr

/-- `pe = cons_row.get("pe_ratio_trailing") if cons_row else None`. -/
def pe_of (cons_row : Option RawRow) : PyVal :=
  match cons_row with
  | some c => c.pe_ratio_trailing
  | Option.none => PyVal.null

theorem pe_of_none : pe_of Option.none = PyVal.null := rfl

theorem pe_of_some (c : RawRow) : pe_of (some c) = c.pe_ratio_trailing := rfl

/-- `calc_ratings.score_from_row(row, cons_row)`. Sub-factor bands are the
`MINMAX` literals of the source; `pe` is read from the raw consolidated row
without passing through `clean_numeric`. -/
def score_from_row (row : ScoreRow) (cons_row : Option RawRow) : Except Unit Scores := do
  let m1 ← minmax_score row.price_return_12m_pct (some (-50)) (some 100) false
  let m2 ← minmax_score row.position_52w_pct (some 0) (some 100) false
  let m3 ← minmax_score row.price_return_3m_pct (some (-50)) (some 100) false
  let momentum_score := round2 (100 * (0.5 * m1 + 0.3 * m2 + 0.2 * m3))
  let q1 ← minmax_score row.gross_margin_pct (some 0) (some 70) false
  let q2 ← minmax_score row.operating_margin_pct (some 0) (some 50) false
  let q3 ← minmax_score row.net_margin_pct (some 0) (some 40) false
  let quality_score := round2 (100 * (0.5 * q1 + 0.3 * q2 + 0.2 * q3))
  let pe := pe_of cons_row
  let v1 ← minmax_score pe (some 5) (some 50) true
  let v2 ← minmax_score row.peg_ratio (some 0) (some 3) true
  let v3 ← minmax_score row.dividend_yield_pct (some 0) (some 10) false
  let valuation_score := round2 (100 * (0.4 * v1 + 0.4 * v2 + 0.2 * v3))
  let g1 ← minmax_score row.eps_growth_12m_pct (some (-50)) (some 50) false
  let g2 ← minmax_score row.revenue_growth_12m_pct (some (-50)) (some 50) false
  let growth_score := round2 (100 * (0.6 * g1 + 0.4 * g2))
  let s1 ← minmax_score row.debt_to_equity (some 0) (some 2) true
  let s2 ← minmax_score row.beta (some 0) (some 2) true
  let financial_stability_score := round2 (100 * (0.6 * s1 + 0.4 * s2))
  let c1 ← minmax_score row.free_cash_flow_margin (some (-50)) (some 50) false
  let c2 ← minmax_score row.operating_cash_flow_margin (some (-50)) (some 50) false
  let cash_flow_score := round2 (100 * (0.5 * c1 + 0.5 * c2))
  let composite_score := round2 (0.2 * momentum_score + 0.2 * quality_score +
    0.2 * valuation_score + 0.2 * growth_score +
    0.1 * financial_stability_score + 0.1 * cash_flow_score)
  let ra : String × String :=
    if composite_score ≥ 80 then ("A", "BUY")
    else if composite_score ≥ 65 then ("B", "ACCUMULATE")
    else if composite_score ≥ 50 then ("C", "HOLD")
    else ("D", "AVOID")
  pure { momentum_score := momentum_score
         quality_score := quality_score
         valuation_score := valuation_score
         growth_score := growth_score
         financial_stability_score := financial_stability_score
         cash_flow_score := cash_flow_score
         composite_score := composite_score
         rating := ra.1
         action := ra.2 }

/-! ## Banding & Ranker (`calc_ratings.main`) -/

/-- One row of `ratings_entries` as far as ranking is concerned: the ticker
key, the composite score, and the `rank` slot initialised to `None`. -/
structure RatingsEntry where
  ticker : String
  composite_score : Option ℚ
  rank : Option ℕ
deriving DecidableEq, Repr

/-- The sort key of `calc_ratings.main`:
`x["composite_score"] if x["composite_score"] is not None else -999`. -/
def sort_key (e : RatingsEntry) : ℚ :=
  match e.composite_score with
  | some q => q
  | Option.none => -999

/-- `a` may precede `b` in the descending sort
(`sorted(..., reverse=True)` on `sort_key`). -/
def rankGE (a b : RatingsEntry) : Prop := sort_key b ≤ sort_key a

instance : DecidableRel rankGE :=
  fun a b => inferInstanceAs (Decidable (sort_key b ≤ sort_key a))

instance : IsTotal RatingsEntry rankGE :=
  ⟨fun a b => le_total (sort_key b) (sort_key a)⟩

instance : IsTrans RatingsEntry rankGE :=
  ⟨fun _ _ _ hab hbc => le_trans hbc hab⟩

/-- The ranking step of `calc_ratings.main`: stable descending sort on
`sort_key` (Python's `sorted` is stable; a stable insertion sort produces
the same list), then `for idx, row in enumerate(ratings_entries, 1):
row["rank"] = idx`. -/
def rank_entries (l : List RatingsEntry) : List RatingsEntry :=
  (List.insertionSort rankGE l).zipWith
    (fun e i => { e with rank := some i }) (List.range' 1 l.length)

/-! ## Supporting lemmas for the sanitizer claims -/

/-- Every `some` output of `clean_numeric` is a clamped-and-rounded value. -/
theorem clean_numeric_some_shape {v : PyVal} {q : ℚ} (h : clean_numeric v = some q) :
    ∃ x, q = clampRound x MAX_VALUE := by
  cases v with
  | null => simp [clean_numeric, clean_numericM] at h
  | nan => simp [clean_numeric, clean_numericM] at h
  | num x =>
      refine ⟨x, ?_⟩
      simp [clean_numeric, clean_numericM] at h
      exact h.symm
  | str s =>
      by_cases he : stripChars s = []
      · simp [clean_numeric, clean_numericM, he] at h
      · cases hp : parseFloat (stripChars s) with
        | none => simp [clean_numeric, clean_numericM, he, hp] at h
        | some x =>
            refine ⟨x, ?_⟩
            simp [clean_numeric, clean_numericM, he, hp] at h
            exact h.symm

/-- The sanitizer only looks at the comma/percent-stripped, trimmed text of
a string input. -/
theorem clean_numeric_str_congr {s t : String} (h : stripChars s = stripChars t) :
    clean_numeric (PyVal.str s) = clean_numeric (PyVal.str t) := by
  simp [clean_numeric, clean_numericM, h]

theorem stripChars_append_comma (s t : String) :
    stripChars (s ++ "," ++ t) = stripChars (s ++ t) := by
  unfold stripChars
  have h1 : (s ++ "," ++ t).toList = s.toList ++ [','] ++ t.toList := by
    simp [String.toList]
  have h2 : (s ++ t).toList = s.toList ++ t.toList := by
    simp [String.toList]
  rw [h1, h2]
  simp [List.filter_append]

theorem stripChars_append_percent (s t : String) :
    stripChars (s ++ "%" ++ t) = stripChars (s ++ t) := by
  unfold stripChars
  have h1 : (s ++ "%" ++ t).toList = s.toList ++ ['%'] ++ t.toList := by
    simp [String.toList]
  have h2 : (s ++ t).toList = s.toList ++ t.toList := by
    simp [String.toList]
  rw [h1, h2]
  simp [List.filter_append]

/-! ## Claim C3 — separator/percent/currency stripping -/

/-- C3 counterexample: the claim says `sanitize("₹1,234.50")` returns
`1234.50`, but `clean_numeric` only strips `,` and `%`, so the currency
glyph survives, `float` raises `ValueError`, and the result is null. -/
theorem c3_currency_not_stripped :
    clean_numeric (PyVal.str "₹1,234.50") = Option.none ∧
      clean_numeric (PyVal.str "₹1,234.50") ≠ some (1234.5 : ℚ) := by
  constructor
  · rfl
  · intro h
    have h0 : clean_numeric (PyVal.str "₹1,234.50") = Option.none := rfl
    rw [h0] at h
    exact Option.noConfusion h

/-- C3 (amended): `clean_numeric` ignores thousands separators and percent
signs wherever they occur and parses the remaining text, e.g.
`sanitize("1,234.50") = 1234.50`; currency glyphs are NOT stripped, so a
currency-marked string fails to parse and degrades to null, e.g.
`sanitize("₹1,234.50") = null`. -/
theorem c3_separator_insensitive :
    (∀ s t : String,
      clean_numeric (PyVal.str (s ++ "," ++ t)) = clean_numeric (PyVal.str (s ++ t)))
  ∧ (∀ s t : String,
      clean_numeric (PyVal.str (s ++ "%" ++ t)) = clean_numeric (PyVal.str (s ++ t)))
  ∧ clean_numeric (PyVal.str "1,234.50") = some (1234.5 : ℚ)
  ∧ clean_numeric (PyVal.str "12%") = some (12 : ℚ)
  ∧ clean_numeric (PyVal.str "₹1,234.50") = Option.none := by
  refine ⟨?_, ?_, ?_, ?_, rfl⟩
  · intro s t
    exact clean_numeric_str_congr (stripChars_append_comma s t)
  · intro s t
    exact clean_numeric_str_congr (stripChars_append_percent s t)
  · have h : clean_numeric (PyVal.str "1,234.50")
        = some (clampRound (1 * ((1234 : ℚ) + 50 / 10 ^ 2)) MAX_VALUE) := rfl
    rw [h]
    have hm : clampRound (1 * ((1234 : ℚ) + 50 / 10 ^ 2)) MAX_VALUE
        = round2 (1 * ((1234 : ℚ) + 50 / 10 ^ 2)) := by
      apply clampRound_mid <;> rw [MAX_VALUE_eq] <;> norm_num
    rw [hm]
    have hr : round2 (1 * ((1234 : ℚ) + 50 / 10 ^ 2)) = 1 * ((1234 : ℚ) + 50 / 10 ^ 2) :=
      @round2_eq_self _ 123450 (by norm_num)
    rw [hr]
    norm_num
  · have h : clean_numeric (PyVal.str "12%")
        = some (clampRound (1 * ((12 : ℕ) : ℚ)) MAX_VALUE) := rfl
    rw [h]
    have hm : clampRound (1 * ((12 : ℕ) : ℚ)) MAX_VALUE
        = round2 (1 * ((12 : ℕ) : ℚ)) := by
      apply clampRound_mid <;> rw [MAX_VALUE_eq] <;> push_cast <;> norm_num
    rw [hm]
    have hr : round2 (1 * ((12 : ℕ) : ℚ)) = 1 * ((12 : ℕ) : ℚ) :=
      @round2_eq_self _ 1200 (by push_cast; norm_num)
    rw [hr]
    push_cast
    norm_num

/-! ## Claim C6 — sanitizer totality, clamping, rounding -/

/-- C6: `clean_numeric` never raises and returns either null (null, NaN,
empty or unparseable input) or a clamped, 2-decimal-rounded float; clamping
at `±MAX_VALUE` is sign-preserving saturation. -/
theorem c6_sanitize_clamps :
    (clean_numeric PyVal.null = Option.none
      ∧ clean_numeric PyVal.nan = Option.none
      ∧ clean_numeric (PyVal.str "") = Option.none
      ∧ clean_numeric (PyVal.str "abc") = Option.none)
  ∧ (∀ v q, clean_numeric v = some q → -MAX_VALUE ≤ q ∧ q ≤ MAX_VALUE)
  ∧ (∀ q : ℚ, MAX_VALUE < q → clean_numeric (PyVal.num q) = some MAX_VALUE)
  ∧ (∀ q : ℚ, q < -MAX_VALUE → clean_numeric (PyVal.num q) = some (-MAX_VALUE))
  ∧ (∀ q : ℚ, -MAX_VALUE ≤ q → q ≤ MAX_VALUE →
      clean_numeric (PyVal.num q) = some (round2 q))
  ∧ (∀ v, clean_numeric v = Option.none
      ∨ ∃ x, clean_numeric v = some (clampRound x MAX_VALUE)) := by
  have hM : (0 : ℚ) ≤ MAX_VALUE := by rw [MAX_VALUE_eq]; norm_num
  refine ⟨⟨rfl, rfl, rfl, rfl⟩, ?_, ?_, ?_, ?_, ?_⟩
  · intro v q h
    obtain ⟨x, hx⟩ := clean_numeric_some_shape h
    rw [hx]
    exact clampRound_bounds x
  · intro q h
    simp [clean_numeric, clean_numericM, clampRound_big h, round2_MAX]
  · intro q h
    simp [clean_numeric, clean_numericM, clampRound_small h hM, round2_neg_MAX]
  · intro q h1 h2
    simp [clean_numeric, clean_numericM, clampRound_mid h1 h2]
  · intro v
    cases hv : clean_numeric v with
    | none => exact Or.inl rfl
    | some q =>
        right
        obtain ⟨x, hx⟩ := clean_numeric_some_shape hv
        exact ⟨x, congrArg some hx⟩

/-- C6 witness: `sanitize(1e12)` saturates to `9999999999.99` and the sign
is preserved for `-1e12`. -/
theorem c6_sanitize_clamps_witness :
    clean_numeric (PyVal.num 1000000000000) = some MAX_VALUE
  ∧ clean_numeric (PyVal.num (-1000000000000)) = some (-MAX_VALUE) :=
  ⟨c6_sanitize_clamps.2.2.1 1000000000000 (by rw [MAX_VALUE_eq]; norm_num),
   c6_sanitize_clamps.2.2.2.1 (-1000000000000) (by rw [MAX_VALUE_eq]; norm_num)⟩

/-! ## Claim C7 — min-max normalization -/

/-- C7: `minmax_score` is `clamp((v − lo)/(hi − lo), 0, 1)`, inverted on
request, and returns 0 whenever any of value/min/max is null or the band is
degenerate (`hi == lo`); `norm(60, 5, 50, invert=True) = 0` because the
pre-inversion score clamps to 1. -/
theorem c7_minmax_norm :
    (∀ lo hi inv, minmax_score PyVal.null lo hi inv = Except.ok 0)
  ∧ (∀ v hi inv, minmax_score v Option.none hi inv = Except.ok 0)
  ∧ (∀ v lo inv, minmax_score v lo Option.none inv = Except.ok 0)
  ∧ (∀ x lo inv, minmax_score (PyVal.num x) (some lo) (some lo) inv = Except.ok 0)
  ∧ (∀ x lo hi inv, hi ≠ lo →
      minmax_score (PyVal.num x) (some lo) (some hi) inv =
        Except.ok (if inv then 1 - max 0 (min 1 ((x - lo) / (hi - lo)))
                   else max 0 (min 1 ((x - lo) / (hi - lo)))))
  ∧ minmax_score (PyVal.num 60) (some 5) (some 50) true = Except.ok 0 := by
  refine ⟨?_, ?_, ?_, ?_, ?_, ?_⟩
  · intro lo hi inv; rfl
  · intro v hi inv; cases v <;> rfl
  · intro v lo inv
    cases v <;> cases lo <;> rfl
  · intro x lo inv
    simp [minmax_score]
  · intro x lo hi inv h
    simp [minmax_score, h]
  · have h5 : ((50 : ℚ)) ≠ 5 := by norm_num
    have hmm : minmax_score (PyVal.num 60) (some 5) (some 50) true =
        Except.ok (1 - max 0 (min 1 ((60 - 5) / (50 - 5)))) := by
      simp [minmax_score, h5]
    rw [hmm]
    norm_num

/-- C7 witness: the general numeric branch applied at
`norm(60, 5, 50, invert=True)`. -/
theorem c7_minmax_norm_witness :
    minmax_score (PyVal.num 60) (some 5) (some 50) true =
      Except.ok (if true then 1 - max 0 (min 1 (((60 : ℚ) - 5) / (50 - 5)))
                 else max 0 (min 1 (((60 : ℚ) - 5) / (50 - 5)))) :=
  c7_minmax_norm.2.2.2.2.1 60 5 50 true (by norm_num)

/-! ## Claim C9 — P/E-vs-sector discount is permanently null -/

/-- C9: `sector_pe` is hard-coded `None`, so the `pe_discount_vs_sector`
field of `compute_derived` is null for every input row, and the degraded
dependency is not an exception (the guard short-circuits before the
subtraction). -/
theorem c9_pe_discount_always_null (row : RawRow) :
    (compute_derived row).pe_discount_vs_sector = Option.none := by
  simp [compute_derived, pyGuard2, truthy]

/-- C9 applied at a concrete row (all fields null). -/
theorem c9_pe_discount_always_null_witness :
    (compute_derived ⟨PyVal.null, PyVal.null, PyVal.null, PyVal.null, PyVal.null,
      PyVal.null, PyVal.null, PyVal.null, PyVal.null, PyVal.null, PyVal.null,
      PyVal.null, PyVal.null, PyVal.null, PyVal.null, PyVal.null, PyVal.null,
      PyVal.null, PyVal.null, PyVal.null, PyVal.null, PyVal.null, PyVal.null,
      PyVal.null, PyVal.null, PyVal.null, PyVal.null, PyVal.null, PyVal.null,
      PyVal.null⟩).pe_discount_vs_sector = Option.none :=
  c9_pe_discount_always_null _

/-! ## Concrete rows and sanitizer evaluations for C1/C8 -/

/-- A raw row with every field null (all keys missing / None). -/
def allNullRawRow : RawRow :=
  ⟨PyVal.null, PyVal.null, PyVal.null, PyVal.null, PyVal.null, PyVal.null,
   PyVal.null, PyVal.null, PyVal.null, PyVal.null, PyVal.null, PyVal.null,
   PyVal.null, PyVal.null, PyVal.null, PyVal.null, PyVal.null, PyVal.null,
   PyVal.null, PyVal.null, PyVal.null, PyVal.null, PyVal.null, PyVal.null,
   PyVal.null, PyVal.null, PyVal.null, PyVal.null, PyVal.null, PyVal.null⟩

/-- `net_income = 0`, `total_revenue = 100`, everything else null. -/
def c1Row : RawRow :=
  { allNullRawRow with
      net_income := PyVal.num 0
      total_revenue := PyVal.num 100 }

/-- `current = 50`, `high = 100`, `low = 0`, everything else null. -/
def c8Row : RawRow :=
  { allNullRawRow with
      current_price := PyVal.num 50
      fifty_two_week_high := PyVal.num 100
      fifty_two_week_low := PyVal.num 0 }

/-- `current = 50`, `high = 100`, `low = 50`, everything else null. -/
def c8ExampleRow : RawRow :=
  { allNullRawRow with
      current_price := PyVal.num 50
      fifty_two_week_high := PyVal.num 100
      fifty_two_week_low := PyVal.num 50 }

/-- Small integers with two decimals pass through the sanitizer unchanged. -/
theorem clean_numeric_small_int (q : ℚ) (n : ℤ) (hq : q * 100 = (n : ℚ))
    (hb1 : -999999999999 ≤ n) (hb2 : n ≤ 999999999999) :
    clean_numeric (PyVal.num q) = some q := by
  apply clean_numeric_num_id hq
  · rw [MAX_VALUE_eq]
    have : ((-999999999999 : ℤ) : ℚ) ≤ (n : ℚ) := by exact_mod_cast hb1
    have hq' : q = (n : ℚ) / 100 := by linarith
    rw [hq']
    push_cast
    push_cast at this
    linarith
  · rw [MAX_VALUE_eq]
    have : (n : ℚ) ≤ ((999999999999 : ℤ) : ℚ) := by exact_mod_cast hb2
    have hq' : q = (n : ℚ) / 100 := by linarith
    rw [hq']
    push_cast
    push_cast at this
    linarith

theorem clean_numeric_num_0 : clean_numeric (PyVal.num 0) = some 0 :=
  clean_numeric_small_int 0 0 (by norm_num) (by norm_num) (by norm_num)

theorem clean_numeric_num_50 : clean_numeric (PyVal.num 50) = some 50 :=
  clean_numeric_small_int 50 5000 (by norm_num) (by norm_num) (by norm_num)

theorem clean_numeric_num_100 : clean_numeric (PyVal.num 100) = some 100 :=
  clean_numeric_small_int 100 10000 (by norm_num) (by norm_num) (by norm_num)

theorem round2_zero : round2 0 = 0 := @round2_eq_self 0 0 (by norm_num)

/-! ## Claim C8 — 52-week position -/

/-- C8 counterexample: with `current = 50`, `low = 0`, `high = 100` the claim
demands `(50 − 0) / (100 − 0) × 100 = 50.0`, but the Python guard
`if cp and f52w_high and f52w_low and ...` treats the zero low as falsy and
the code returns null. -/
theorem c8_truthiness_nulls_zero_low :
    (compute_derived c8Row).position_52w_pct = Option.none
  ∧ clean_numeric c8Row.current_price = some 50
  ∧ clean_numeric c8Row.fifty_two_week_high = some 100
  ∧ clean_numeric c8Row.fifty_two_week_low = some 0
  ∧ (100 : ℚ) ≠ (0 : ℚ)
  ∧ (compute_derived c8Row).position_52w_pct
      ≠ some (round2 (((50 : ℚ) - 0) / (100 - 0) * 100)) := by
  have hcp : c8Row.current_price = PyVal.num 50 := rfl
  have hhi : c8Row.fifty_two_week_high = PyVal.num 100 := rfl
  have hlo : c8Row.fifty_two_week_low = PyVal.num 0 := rfl
  have hpos : (compute_derived c8Row).position_52w_pct = Option.none := by
    show pyGuard52 (clean_numeric c8Row.current_price)
      (clean_numeric c8Row.fifty_two_week_high)
      (clean_numeric c8Row.fifty_two_week_low)
      (fun c hi lo => (c - lo) / (hi - lo) * 100) = Option.none
    rw [hcp, hhi, hlo, clean_numeric_num_50, clean_numeric_num_100, clean_numeric_num_0]
    norm_num [pyGuard52, truthy]
  refine ⟨hpos, ?_, ?_, ?_, by norm_num, ?_⟩
  · rw [hcp]; exact clean_numeric_num_50
  · rw [hhi]; exact clean_numeric_num_100
  · rw [hlo]; exact clean_numeric_num_0
  · rw [hpos]
    intro h
    exact Option.noConfusion h

/-- Projection equations of `compute_derived`, stating each output field in
terms of the sanitized operands. Each is definitional. -/
theorem cd_price_return_3m (row : RawRow) :
    (compute_derived row).price_return_3m_pct
      = pyGuard2 (clean_numeric row.current_price) (clean_numeric row.price_3m_ago)
          (fun c p => (c - p) / p * 100) := by
  simp [compute_derived]

theorem cd_price_return_6m (row : RawRow) :
    (compute_derived row).price_return_6m_pct
      = pyGuard2 (clean_numeric row.current_price) (clean_numeric row.price_6m_ago)
          (fun c p => (c - p) / p * 100) := by
  simp [compute_derived]

theorem cd_price_return_12m (row : RawRow) :
    (compute_derived row).price_return_12m_pct
      = pyGuard2 (clean_numeric row.current_price) (clean_numeric row.price_12m_ago)
          (fun c p => (c - p) / p * 100) := by
  simp [compute_derived]

theorem cd_position_52w (row : RawRow) :
    (compute_derived row).position_52w_pct
      = pyGuard52 (clean_numeric row.current_price)
          (clean_numeric row.fifty_two_week_high)
          (clean_numeric row.fifty_two_week_low)
          (fun c hi lo => (c - lo) / (hi - lo) * 100) := by
  simp [compute_derived]

theorem cd_ytd_return (row : RawRow) :
    (compute_derived row).ytd_return_pct
      = pyGuard2 (clean_numeric row.current_price) (clean_numeric row.previous_close)
          (fun c p => (c - p) / p * 100) := by
  simp [compute_derived]

theorem cd_market_cap_to_revenue (row : RawRow) :
    (compute_derived row).market_cap_to_revenue
      = pyGuard2 (clean_numeric row.market_cap) (clean_numeric row.total_revenue)
          (fun m t => m / t) := by
  simp [compute_derived]

theorem cd_ev_to_ebitda (row : RawRow) :
    (compute_derived row).enterprise_value_to_ebitda
      = pyGuard2 (clean_numeric row.enterprise_value) (clean_numeric row.ebitda)
          (fun e b => e / b) := by
  simp [compute_derived]

theorem cd_pe_discount (row : RawRow) :
    (compute_derived row).pe_discount_vs_sector
      = pyGuard2 (clean_numeric row.pe_ratio_trailing) Option.none
          (fun p s => p - s) := by
  simp [compute_derived]

theorem cd_gross_margin (row : RawRow) :
    (compute_derived row).gross_margin_pct = clean_numeric row.gross_margin := by
  simp [compute_derived]

theorem cd_operating_margin (row : RawRow) :
    (compute_derived row).operating_margin_pct = clean_numeric row.operating_margin := by
  simp [compute_derived]

theorem cd_net_margin (row : RawRow) :
    (compute_derived row).net_margin_pct
      = pyGuard2 (clean_numeric row.net_income) (clean_numeric row.total_revenue)
          (fun n t => n / t * 100) := by
  simp [compute_derived]

theorem cd_eps_growth_3m (row : RawRow) :
    (compute_derived row).eps_growth_3m_pct
      = pyGuard2 (clean_numeric row.earnings_per_share) (clean_numeric row.eps_3m_ago)
          (fun e p => (e - p) / p * 100) := by
  simp [compute_derived]

theorem cd_eps_growth_6m (row : RawRow) :
    (compute_derived row).eps_growth_6m_pct
      = pyGuard2 (clean_numeric row.earnings_per_share) (clean_numeric row.eps_6m_ago)
          (fun e p => (e - p) / p * 100) := by
  simp [compute_derived]

theorem cd_eps_growth_12m (row : RawRow) :
    (compute_derived row).eps_growth_12m_pct
      = pyGuard2 (clean_numeric row.earnings_per_share) (clean_numeric row.eps_12m_ago)
          (fun e p => (e - p) / p * 100) := by
  simp [compute_derived]

theorem cd_revenue_growth_3m (row : RawRow) :
    (compute_derived row).revenue_growth_3m_pct
      = pyGuard2 (clean_numeric row.total_revenue) (clean_numeric row.revenue_3m_ago)
          (fun t p => (t - p) / p * 100) := by
  simp [compute_derived]

theorem cd_revenue_growth_6m (row : RawRow) :
    (compute_derived row).revenue_growth_6m_pct
      = pyGuard2 (clean_numeric row.total_revenue) (clean_numeric row.revenue_6m_ago)
          (fun t p => (t - p) / p * 100) := by
  simp [compute_derived]

theorem cd_revenue_growth_12m (row : RawRow) :
    (compute_derived row).revenue_growth_12m_pct
      = pyGuard2 (clean_numeric row.total_revenue) (clean_numeric row.revenue_12m_ago)
          (fun t p => (t - p) / p * 100) := by
  simp [compute_derived]

theorem cd_book_to_price (row : RawRow) :
    (compute_derived row).book_to_price_ratio
      = pyGuard2z (clean_numeric row.book_value_per_share)
          (clean_numeric row.current_price) (fun b c => b / c) := by
  simp [compute_derived]

theorem cd_peg (row : RawRow) :
    (compute_derived row).peg_ratio
      = pyGuard2z (clean_numeric row.pe_ratio_trailing) (clean_numeric row.eps_growth)
          (fun p e => p / e) := by
  simp [compute_derived]

theorem cd_dividend_yield (row : RawRow) :
    (compute_derived row).dividend_yield_pct = clean_numeric row.dividend_yield := by
  simp [compute_derived]

theorem cd_beta (row : RawRow) :
    (compute_derived row).beta = clean_numeric row.beta := by
  simp [compute_derived]

theorem cd_debt_to_equity (row : RawRow) :
    (compute_derived row).debt_to_equity = clean_numeric row.debt_to_equity := by
  simp [compute_derived]

theorem cd_fcf_margin (row : RawRow) :
    (compute_derived row).free_cash_flow_margin
      = pyGuard2z (clean_numeric row.free_cash_flow) (clean_numeric row.total_revenue)
          (fun f t => f / t * 100) := by
  simp [compute_derived]

theorem cd_ocf_margin (row : RawRow) :
    (compute_derived row).operating_cash_flow_margin
      = pyGuard2z (clean_numeric row.operating_cash_flow) (clean_numeric row.total_revenue)
          (fun o t => o / t * 100) := by
  simp [compute_derived]

theorem cd_dividend_payout (row : RawRow) :
    (compute_derived row).dividend_payout_ratio
      = pyGuard2z (clean_numeric row.dividend_yield) (clean_numeric row.earnings_per_share)
          (fun d e => d / e) := by
  simp [compute_derived]

theorem cd_upside (row : RawRow) :
    (compute_derived row).upside_potential_pct
      = pyGuard2z (clean_numeric row.analyst_target_price) (clean_numeric row.current_price)
          (fun a c => (a - c) / c * 100) := by
  simp [compute_derived]

/-- C8 (amended): the 52-week position is
`round2((current − low)/(high − low) × 100)` whenever current, high and low
are all non-null *and non-zero* and `high ≠ low`; it is null when
`high == low`, and also null when any of the three operands is null or zero
(Python truthiness); `current=50, low=50, high=100` yields `0.0`. -/
theorem c8_position_52w (row : RawRow) :
    (∀ c h l, clean_numeric row.current_price = some c →
      clean_numeric row.fifty_two_week_high = some h →
      clean_numeric row.fifty_two_week_low = some l →
      c ≠ 0 → h ≠ 0 → l ≠ 0 → h - l ≠ 0 →
      (compute_derived row).position_52w_pct = some (round2 ((c - l) / (h - l) * 100)))
  ∧ (∀ c h l, clean_numeric row.current_price = some c →
      clean_numeric row.fifty_two_week_high = some h →
      clean_numeric row.fifty_two_week_low = some l →
      h = l → (compute_derived row).position_52w_pct = Option.none)
  ∧ ((compute_derived row).position_52w_pct = Option.none ↔
      ¬(truthy (clean_numeric row.current_price) = true
        ∧ truthy (clean_numeric row.fifty_two_week_high) = true
        ∧ truthy (clean_numeric row.fifty_two_week_low) = true
        ∧ (clean_numeric row.fifty_two_week_high).getD 0
            - (clean_numeric row.fifty_two_week_low).getD 0 ≠ 0))
  ∧ (compute_derived c8ExampleRow).position_52w_pct = some 0 := by
  refine ⟨?_, ?_, ?_, ?_⟩
  · intro c h l hc hh hl hc0 hh0 hl0 hdiff
    rw [cd_position_52w]
    exact pyGuard52_pos _ hc hh hl hc0 hh0 hl0 hdiff
  · intro c h l hc hh hl heq
    rw [cd_position_52w, hc, hh, hl, heq]
    simp [pyGuard52]
  · rw [cd_position_52w]
    exact pyGuard52_none_iff _
  · have hcp : c8ExampleRow.current_price = PyVal.num 50 := rfl
    have hhi : c8ExampleRow.fifty_two_week_high = PyVal.num 100 := rfl
    have hlo : c8ExampleRow.fifty_two_week_low = PyVal.num 50 := rfl
    rw [cd_position_52w, hcp, hhi, hlo, clean_numeric_num_50, clean_numeric_num_100]
    norm_num [pyGuard52, truthy, round2_zero]

/-- C8 witness: the positive branch applied at
`current=50, low=25, high=100` (all operands non-null, non-zero). -/
theorem c8_position_52w_witness :
    (compute_derived { allNullRawRow with
        current_price := PyVal.num 50
        fifty_two_week_high := PyVal.num 100
        fifty_two_week_low := PyVal.num 25 }).position_52w_pct
      = some (round2 (((50 : ℚ) - 25) / (100 - 25) * 100)) :=
  (c8_position_52w _).1 50 100 25
    (clean_numeric_small_int 50 5000 (by norm_num) (by norm_num) (by norm_num))
    (clean_numeric_small_int 100 10000 (by norm_num) (by norm_num) (by norm_num))
    (clean_numeric_small_int 25 2500 (by norm_num) (by norm_num) (by norm_num))
    (by norm_num) (by norm_num) (by norm_num) (by norm_num)

/-! ## Claim C1 — null policy of the derived fields -/

/-- C1 counterexample: `net_income = 0` and `total_revenue = 100` are both
non-null and the denominator is non-zero, yet `net_margin_pct` is null:
Python's `if net_income and total_revenue` treats the zero numerator as
falsy, while the claim demands the numeric result `round(0/100*100, 2)`. -/
theorem c1_zero_operand_yields_null :
    (compute_derived c1Row).net_margin_pct = Option.none
  ∧ clean_numeric c1Row.net_income = some 0
  ∧ clean_numeric c1Row.total_revenue = some 100
  ∧ (100 : ℚ) ≠ 0
  ∧ (compute_derived c1Row).net_margin_pct ≠ some (round2 ((0 : ℚ) / 100 * 100)) := by
  have hni : c1Row.net_income = PyVal.num 0 := rfl
  have htr : c1Row.total_revenue = PyVal.num 100 := rfl
  have hnm : (compute_derived c1Row).net_margin_pct = Option.none := by
    rw [cd_net_margin, hni, htr, clean_numeric_num_0, clean_numeric_num_100]
    norm_num [pyGuard2, truthy]
  refine ⟨hnm, ?_, ?_, by norm_num, ?_⟩
  · rw [hni]; exact clean_numeric_num_0
  · rw [htr]; exact clean_numeric_num_100
  · rw [hnm]
    intro h
    exact Option.noConfusion h

/-- The two-operand guarded fields of `compute_derived`:
(output field, first operand, second operand, formula). -/
def guard2Fields :
    List ((Derived → Option ℚ) × (RawRow → PyVal) × (RawRow → PyVal) × (ℚ → ℚ → ℚ)) :=
  [ (Derived.price_return_3m_pct, RawRow.current_price, RawRow.price_3m_ago,
      fun c p => (c - p) / p * 100),
    (Derived.price_return_6m_pct, RawRow.current_price, RawRow.price_6m_ago,
      fun c p => (c - p) / p * 100),
    (Derived.price_return_12m_pct, RawRow.current_price, RawRow.price_12m_ago,
      fun c p => (c - p) / p * 100),
    (Derived.ytd_return_pct, RawRow.current_price, RawRow.previous_close,
      fun c p => (c - p) / p * 100),
    (Derived.market_cap_to_revenue, RawRow.market_cap, RawRow.total_revenue,
      fun m t => m / t),
    (Derived.enterprise_value_to_ebitda, RawRow.enterprise_value, RawRow.ebitda,
      fun e b => e / b),
    (Derived.net_margin_pct, RawRow.net_income, RawRow.total_revenue,
      fun n t => n / t * 100),
    (Derived.eps_growth_3m_pct, RawRow.earnings_per_share, RawRow.eps_3m_ago,
      fun e p => (e - p) / p * 100),
    (Derived.eps_growth_6m_pct, RawRow.earnings_per_share, RawRow.eps_6m_ago,
      fun e p => (e - p) / p * 100),
    (Derived.eps_growth_12m_pct, RawRow.earnings_per_share, RawRow.eps_12m_ago,
      fun e p => (e - p) / p * 100),
    (Derived.revenue_growth_3m_pct, RawRow.total_revenue, RawRow.revenue_3m_ago,
      fun t p => (t - p) / p * 100),
    (Derived.revenue_growth_6m_pct, RawRow.total_revenue, RawRow.revenue_6m_ago,
      fun t p => (t - p) / p * 100),
    (Derived.revenue_growth_12m_pct, RawRow.total_revenue, RawRow.revenue_12m_ago,
      fun t p => (t - p) / p * 100) ]

/-- The `a and b and b != 0` guarded fields of `compute_derived`. -/
def guard2zFields :
    List ((Derived → Option ℚ) × (RawRow → PyVal) × (RawRow → PyVal) × (ℚ → ℚ → ℚ)) :=
  [ (Derived.book_to_price_ratio, RawRow.book_value_per_share, RawRow.current_price,
      fun b c => b / c),
    (Derived.peg_ratio, RawRow.pe_ratio_trailing, RawRow.eps_growth,
      fun p e => p / e),
    (Derived.free_cash_flow_margin, RawRow.free_cash_flow, RawRow.total_revenue,
      fun f t => f / t * 100),
    (Derived.operating_cash_flow_margin, RawRow.operating_cash_flow, RawRow.total_revenue,
      fun o t => o / t * 100),
    (Derived.dividend_payout_ratio, RawRow.dividend_yield, RawRow.earnings_per_share,
      fun d e => d / e),
    (Derived.upside_potential_pct, RawRow.analyst_target_price, RawRow.current_price,
      fun a c => (a - c) / c * 100) ]

/-- The sanitize-and-copy fields of `compute_derived`. -/
def passFields : List ((Derived → Option ℚ) × (RawRow → PyVal)) :=
  [ (Derived.gross_margin_pct, RawRow.gross_margin),
    (Derived.operating_margin_pct, RawRow.operating_margin),
    (Derived.dividend_yield_pct, RawRow.dividend_yield),
    (Derived.beta, RawRow.beta),
    (Derived.debt_to_equity, RawRow.debt_to_equity) ]

/-- Bundled characterization of `pyGuard2`. -/
theorem guard2_spec (a b : Option ℚ) (f : ℚ → ℚ → ℚ) :
    (pyGuard2 a b f = Option.none ↔ ¬(truthy a = true ∧ truthy b = true))
  ∧ (∀ x y, a = some x → b = some y → x ≠ 0 → y ≠ 0 →
      pyGuard2 a b f = some (round2 (f x y))) :=
  ⟨pyGuard2_none_iff f, fun _ _ hx hy h1 h2 => pyGuard2_pos f hx hy h1 h2⟩

/-- Bundled characterization of `pyGuard2z`. -/
theorem guard2z_spec (a b : Option ℚ) (f : ℚ → ℚ → ℚ) :
    (pyGuard2z a b f = Option.none ↔
      ¬(truthy a = true ∧ truthy b = true ∧ b.getD 0 ≠ 0))
  ∧ (∀ x y, a = some x → b = some y → x ≠ 0 → y ≠ 0 →
      pyGuard2z a b f = some (round2 (f x y))) :=
  ⟨pyGuard2z_none_iff f, fun _ _ hx hy h1 h2 => pyGuard2z_pos f hx hy h1 h2⟩

/-- C1 (amended): every derived field is null **unless every operand is
non-null and non-zero** (Python truthiness also nulls a zero-valued
numerator) and the explicit denominator checks pass; when all operands are
non-null and non-zero the rounded formula value is returned; pass-through
fields copy the sanitized input; the sector-P/E field is always null;
malformed inputs never raise (the embedding is total). -/
theorem c1_null_policy (row : RawRow) :
    (∀ t ∈ guard2Fields,
      (t.1 (compute_derived row) = Option.none ↔
        ¬(truthy (clean_numeric (t.2.1 row)) = true
          ∧ truthy (clean_numeric (t.2.2.1 row)) = true))
      ∧ (∀ x y, clean_numeric (t.2.1 row) = some x →
          clean_numeric (t.2.2.1 row) = some y → x ≠ 0 → y ≠ 0 →
          t.1 (compute_derived row) = some (round2 (t.2.2.2 x y))))
  ∧ (∀ t ∈ guard2zFields,
      (t.1 (compute_derived row) = Option.none ↔
        ¬(truthy (clean_numeric (t.2.1 row)) = true
          ∧ truthy (clean_numeric (t.2.2.1 row)) = true
          ∧ (clean_numeric (t.2.2.1 row)).getD 0 ≠ 0))
      ∧ (∀ x y, clean_numeric (t.2.1 row) = some x →
          clean_numeric (t.2.2.1 row) = some y → x ≠ 0 → y ≠ 0 →
          t.1 (compute_derived row) = some (round2 (t.2.2.2 x y))))
  ∧ (∀ t ∈ passFields, t.1 (compute_derived row) = clean_numeric (t.2 row))
  ∧ ((compute_derived row).pe_discount_vs_sector = Option.none)
  ∧ ((compute_derived row).position_52w_pct = Option.none ↔
      ¬(truthy (clean_numeric row.current_price) = true
        ∧ truthy (clean_numeric row.fifty_two_week_high) = true
        ∧ truthy (clean_numeric row.fifty_two_week_low) = true
        ∧ (clean_numeric row.fifty_two_week_high).getD 0
            - (clean_numeric row.fifty_two_week_low).getD 0 ≠ 0)) := by
  refine ⟨?_, ?_, ?_, ?_, ?_⟩
  · intro t ht
    fin_cases ht <;>
      simp only [cd_price_return_3m, cd_price_return_6m, cd_price_return_12m,
        cd_ytd_return, cd_market_cap_to_revenue, cd_ev_to_ebitda, cd_net_margin,
        cd_eps_growth_3m, cd_eps_growth_6m, cd_eps_growth_12m,
        cd_revenue_growth_3m, cd_revenue_growth_6m, cd_revenue_growth_12m] <;>
      exact guard2_spec _ _ _
  · intro t ht
    fin_cases ht <;>
      simp only [cd_book_to_price, cd_peg, cd_fcf_margin, cd_ocf_margin,
        cd_dividend_payout, cd_upside] <;>
      exact guard2z_spec _ _ _
  · intro t ht
    fin_cases ht <;>
      simp only [cd_gross_margin, cd_operating_margin, cd_dividend_yield,
        cd_beta, cd_debt_to_equity]
  · rw [cd_pe_discount]
    simp [pyGuard2, truthy]
  · rw [cd_position_52w]
    exact pyGuard52_none_iff _

/-- `current_price = 110`, `price_3m_ago = 100`, everything else null. -/
def c1WitnessRow : RawRow :=
  { allNullRawRow with
      current_price := PyVal.num 110
      price_3m_ago := PyVal.num 100 }

/-- C1 witness: the positive branch of the null policy at
`current=110, price_3m_ago=100`, the spec's own return-formula example. -/
theorem c1_null_policy_witness :
    (compute_derived c1WitnessRow).price_return_3m_pct
      = some (round2 (((110 : ℚ) - 100) / 100 * 100)) :=
  ((c1_null_policy c1WitnessRow).1
    (Derived.price_return_3m_pct, RawRow.current_price, RawRow.price_3m_ago,
      fun c p => (c - p) / p * 100)
    (List.mem_cons_self _ _)).2 110 100
    (clean_numeric_small_int 110 11000 (by norm_num) (by norm_num) (by norm_num))
    (clean_numeric_small_int 100 10000 (by norm_num) (by norm_num) (by norm_num))
    (by norm_num) (by norm_num)

/-! ## Scoring-engine material shared by C2, C5, C10 -/

/-- A derived row with every field null. -/
def allNullScoreRow : ScoreRow :=
  ⟨PyVal.null, PyVal.null, PyVal.null, PyVal.null, PyVal.null, PyVal.null,
   PyVal.null, PyVal.null, PyVal.null, PyVal.null, PyVal.null, PyVal.null,
   PyVal.null, PyVal.null⟩

/-- The scores produced from an all-null input. -/
def zeroScores : Scores := ⟨0, 0, 0, 0, 0, 0, 0, "D", "AVOID"⟩

theorem minmax_null (lo hi : Option ℚ) (inv : Bool) :
    minmax_score PyVal.null lo hi inv = Except.ok 0 := rfl

theorem exceptBindOk {α β : Type} (a : α) (k : α → Except Unit β) :
    (Except.ok a >>= k) = k a := rfl

theorem exceptBindErr {α β : Type} (e : Unit) (k : α → Except Unit β) :
    ((Except.error e : Except Unit α) >>= k) = Except.error e := rfl

theorem exceptPure {β : Type} (b : β) : (pure b : Except Unit β) = Except.ok b := rfl

theorem except_bind_ok {α β : Type} {x : Except Unit α} {k : α → Except Unit β} {s : β}
    (h : (x >>= k) = Except.ok s) : ∃ a, x = Except.ok a ∧ k a = Except.ok s := by
  cases x with
  | error e =>
      exfalso
      rw [exceptBindErr] at h
      exact Except.noConfusion h
  | ok a =>
      refine ⟨a, rfl, ?_⟩
      rw [exceptBindOk] at h
      exact h

/-- Any successful result of `score_from_row` has its composite as the
rounded weighted blend of its own six category scores, and its
rating/action as the pure banding of that composite. -/
theorem score_ok_shape {row : ScoreRow} {cons : Option RawRow} {s : Scores}
    (h : score_from_row row cons = Except.ok s) :
    s.composite_score = round2 (0.2 * s.momentum_score + 0.2 * s.quality_score +
      0.2 * s.valuation_score + 0.2 * s.growth_score +
      0.1 * s.financial_stability_score + 0.1 * s.cash_flow_score)
  ∧ (s.rating, s.action) =
      (if s.composite_score ≥ 80 then ("A", "BUY")
       else if s.composite_score ≥ 65 then ("B", "ACCUMULATE")
       else if s.composite_score ≥ 50 then ("C", "HOLD")
       else ("D", "AVOID")) := by
  unfold score_from_row at h
  obtain ⟨m1, hm1, h⟩ := except_bind_ok h
  obtain ⟨m2, hm2, h⟩ := except_bind_ok h
  obtain ⟨m3, hm3, h⟩ := except_bind_ok h
  obtain ⟨q1, hq1, h⟩ := except_bind_ok h
  obtain ⟨q2, hq2, h⟩ := except_bind_ok h
  obtain ⟨q3, hq3, h⟩ := except_bind_ok h
  obtain ⟨v1, hv1, h⟩ := except_bind_ok h
  obtain ⟨v2, hv2, h⟩ := except_bind_ok h
  obtain ⟨v3, hv3, h⟩ := except_bind_ok h
  obtain ⟨g1, hg1, h⟩ := except_bind_ok h
  obtain ⟨g2, hg2, h⟩ := except_bind_ok h
  obtain ⟨s1, hs1, h⟩ := except_bind_ok h
  obtain ⟨s2, hs2, h⟩ := except_bind_ok h
  obtain ⟨c1, hc1, h⟩ := except_bind_ok h
  obtain ⟨c2, hc2, h⟩ := except_bind_ok h
  have hs : (Except.ok _ : Except Unit Scores) = Except.ok s := h
  have := Except.ok.inj hs
  subst this
  exact ⟨rfl, rfl⟩

/-! ## Claim C5 — composite weighting and banding -/

/-- C5: a scored row's composite equals the rounded weighted sum
`0.2·momentum + 0.2·quality + 0.2·valuation + 0.2·growth + 0.1·stability +
0.1·cashflow` of its own category scores, and grade/action are a pure
threshold function of the composite alone (`≥80 → A/BUY`,
`≥65 → B/ACCUMULATE`, `≥50 → C/HOLD`, else `D/AVOID`), independent of the
rest of the batch. -/
theorem c5_composite_weighting (row : ScoreRow) (cons : Option RawRow) (s : Scores)
    (h : score_from_row row cons = Except.ok s) :
    s.composite_score = round2 (0.2 * s.momentum_score + 0.2 * s.quality_score +
      0.2 * s.valuation_score + 0.2 * s.growth_score +
      0.1 * s.financial_stability_score + 0.1 * s.cash_flow_score)
  ∧ (80 ≤ s.composite_score → s.rating = "A" ∧ s.action = "BUY")
  ∧ (65 ≤ s.composite_score → s.composite_score < 80 →
      s.rating = "B" ∧ s.action = "ACCUMULATE")
  ∧ (50 ≤ s.composite_score → s.composite_score < 65 →
      s.rating = "C" ∧ s.action = "HOLD")
  ∧ (s.composite_score < 50 → s.rating = "D" ∧ s.action = "AVOID") := by
  obtain ⟨hcomp, hband⟩ := score_ok_shape h
  refine ⟨hcomp, ?_, ?_, ?_, ?_⟩
  · intro h80
    rw [if_pos h80] at hband
    exact ⟨congrArg Prod.fst hband, congrArg Prod.snd hband⟩
  · intro h65 h80
    rw [if_neg (not_le.mpr h80), if_pos h65] at hband
    exact ⟨congrArg Prod.fst hband, congrArg Prod.snd hband⟩
  · intro h50 h65
    rw [if_neg (not_le.mpr (lt_of_lt_of_le h65 (by norm_num))),
      if_neg (not_le.mpr h65), if_pos h50] at hband
    exact ⟨congrArg Prod.fst hband, congrArg Prod.snd hband⟩
  · intro h50
    rw [if_neg (not_le.mpr (lt_of_lt_of_le h50 (by norm_num))),
      if_neg (not_le.mpr (lt_of_lt_of_le h50 (by norm_num))),
      if_neg (not_le.mpr h50)] at hband
    exact ⟨congrArg Prod.fst hband, congrArg Prod.snd hband⟩

/-- C5 witness: the all-null batch row scores `.ok zeroScores`, whose
composite `0` falls in the `D/AVOID` band. -/
theorem c5_composite_weighting_witness :
    zeroScores.rating = "D" ∧ zeroScores.action = "AVOID" :=
  (c5_composite_weighting allNullScoreRow Option.none zeroScores
    (by norm_num [score_from_row, allNullScoreRow, minmax_null, exceptBindOk,
      round2_zero, zeroScores, pe_of_none])).2.2.2.2
    (by norm_num [zeroScores])

/-! ## Claim C10 — the scoring engine never produces a null composite -/

/-- A storage value consistent with the derived-row invariant:
null or numeric. -/
def isNumOrNull : PyVal → Bool
  | PyVal.null => true
  | PyVal.num _ => true
  | PyVal.nan => false
  | PyVal.str _ => false

theorem pe_numOrNull (cons : Option RawRow)
    (hpe : ∀ c, cons = some c → isNumOrNull c.pe_ratio_trailing = true) :
    isNumOrNull (pe_of cons) = true := by
  cases cons with
  | none => rfl
  | some c => exact hpe c rfl

theorem minmax_score_ok (v : PyVal) (lo hi : Option ℚ) (inv : Bool)
    (h : isNumOrNull v = true) :
    ∃ q, minmax_score v lo hi inv = Except.ok q := by
  cases v with
  | null => exact ⟨0, rfl⟩
  | nan => simp [isNumOrNull] at h
  | str s => simp [isNumOrNull] at h
  | num x =>
      cases lo with
      | none => exact ⟨0, rfl⟩
      | some l =>
          cases hi with
          | none => exact ⟨0, rfl⟩
          | some hh =>
              by_cases heq : hh = l
              · exact ⟨0, by simp [minmax_score, heq]⟩
              · exact ⟨(if inv then 1 - max 0 (min 1 ((x - l) / (hh - l)))
                        else max 0 (min 1 ((x - l) / (hh - l)))),
                  by simp [minmax_score, heq]⟩

/-- C10: on every pair of rows whose referenced fields are null or numeric
(the derived-row invariant), `score_from_row` succeeds with a numeric —
never null — composite score; on the all-null pair every category score is
`0`, the composite is `0`, and the grade/action is `D`/`AVOID`, so the
null-composite branch of the ranking sort is dead code. -/
theorem c10_composite_never_null :
    (∀ (row : ScoreRow) (cons : Option RawRow),
      isNumOrNull row.price_return_12m_pct = true →
      isNumOrNull row.position_52w_pct = true →
      isNumOrNull row.price_return_3m_pct = true →
      isNumOrNull row.gross_margin_pct = true →
      isNumOrNull row.operating_margin_pct = true →
      isNumOrNull row.net_margin_pct = true →
      isNumOrNull row.peg_ratio = true →
      isNumOrNull row.dividend_yield_pct = true →
      isNumOrNull row.eps_growth_12m_pct = true →
      isNumOrNull row.revenue_growth_12m_pct = true →
      isNumOrNull row.debt_to_equity = true →
      isNumOrNull row.beta = true →
      isNumOrNull row.free_cash_flow_margin = true →
      isNumOrNull row.operating_cash_flow_margin = true →
      (∀ c, cons = some c → isNumOrNull c.pe_ratio_trailing = true) →
      ∃ s, score_from_row row cons = Except.ok s)
  ∧ score_from_row allNullScoreRow Option.none = Except.ok zeroScores := by
  constructor
  · intro row cons h1 h2 h3 h4 h5 h6 h7 h8 h9 h10 h11 h12 h13 h14 hpe
    obtain ⟨a1, e1⟩ := minmax_score_ok row.price_return_12m_pct (some (-50)) (some 100) false h1
    obtain ⟨a2, e2⟩ := minmax_score_ok row.position_52w_pct (some 0) (some 100) false h2
    obtain ⟨a3, e3⟩ := minmax_score_ok row.price_return_3m_pct (some (-50)) (some 100) false h3
    obtain ⟨a4, e4⟩ := minmax_score_ok row.gross_margin_pct (some 0) (some 70) false h4
    obtain ⟨a5, e5⟩ := minmax_score_ok row.operating_margin_pct (some 0) (some 50) false h5
    obtain ⟨a6, e6⟩ := minmax_score_ok row.net_margin_pct (some 0) (some 40) false h6
    have hpv := pe_numOrNull cons hpe
    obtain ⟨a7, e7⟩ := minmax_score_ok _ (some 5) (some 50) true hpv
    obtain ⟨a8, e8⟩ := minmax_score_ok row.peg_ratio (some 0) (some 3) true h7
    obtain ⟨a9, e9⟩ := minmax_score_ok row.dividend_yield_pct (some 0) (some 10) false h8
    obtain ⟨a10, e10⟩ := minmax_score_ok row.eps_growth_12m_pct (some (-50)) (some 50) false h9
    obtain ⟨a11, e11⟩ := minmax_score_ok row.revenue_growth_12m_pct (some (-50)) (some 50) false h10
    obtain ⟨a12, e12⟩ := minmax_score_ok row.debt_to_equity (some 0) (some 2) true h11
    obtain ⟨a13, e13⟩ := minmax_score_ok row.beta (some 0) (some 2) true h12
    obtain ⟨a14, e14⟩ := minmax_score_ok row.free_cash_flow_margin (some (-50)) (some 50) false h13
    obtain ⟨a15, e15⟩ := minmax_score_ok row.operating_cash_flow_margin (some (-50)) (some 50) false h14
    cases hres : score_from_row row cons with
    | ok s => exact ⟨s, rfl⟩
    | error err =>
        unfold score_from_row at hres
        simp only [e1, e2, e3, e4, e5, e6, e7, e8, e9, e10, e11, e12, e13, e14, e15,
          exceptBindOk, exceptPure] at hres
        exact Except.noConfusion hres
  · norm_num [score_from_row, allNullScoreRow, minmax_null, exceptBindOk,
      round2_zero, zeroScores, pe_of_none]

/-- C10 witness: the all-null pair discharges every hypothesis of the
totality branch. -/
theorem c10_composite_never_null_witness :
    ∃ s, score_from_row allNullScoreRow Option.none = Except.ok s :=
  c10_composite_never_null.1 allNullScoreRow Option.none rfl rfl rfl rfl rfl rfl rfl
    rfl rfl rfl rfl rfl rfl rfl (fun _ hc => Option.noConfusion hc)

/-! ## Claim C2 — the scoring stage bypasses the sanitizer -/

/-- A textual value in the `str` branch of `minmax_score` escapes as a
`TypeError` whenever the None/degenerate-band guard does not fire. -/
theorem minmax_str_error (s : String) (lo hi : ℚ) (inv : Bool) (h : hi ≠ lo) :
    minmax_score (PyVal.str s) (some lo) (some hi) inv = Except.error () := by
  simp [minmax_score, h]

/-- A raw consolidated row whose `pe_ratio_trailing` is the text `"N/A"`. -/
def strPeCons : RawRow :=
  { allNullRawRow with pe_ratio_trailing := PyVal.str "N/A" }

/-- C2 failing input: `score_from_row` reads `pe_ratio_trailing` straight
from the raw consolidated row — it never passes it through `clean_numeric` —
so a textual value reaches `(value - min_val)` inside `minmax_score` and the
`TypeError` escapes the scoring engine, contradicting the claim that every
numeric field is sanitized before arithmetic and that no exception escapes. -/
theorem c2_unsanitized_pe_raises :
    score_from_row allNullScoreRow (some strPeCons) = Except.error ()
  ∧ clean_numeric strPeCons.pe_ratio_trailing = Option.none := by
  constructor
  · have hpe : pe_of (some strPeCons) = PyVal.str "N/A" := rfl
    have herr : minmax_score (PyVal.str "N/A") (some 5) (some 50) true
        = Except.error () := minmax_str_error "N/A" 5 50 true (by norm_num)
    unfold score_from_row
    simp only [allNullScoreRow, minmax_null, exceptBindOk, hpe, herr, exceptBindErr]
  · rfl

/-! ## Claim C4 — ranking: descending sort, null sentinel, dense ranks -/

theorem map_rank_zipWith :
    ∀ (s : List RatingsEntry) (r : List ℕ), s.length = r.length →
      ((s.zipWith (fun e i => { e with rank := some i }) r).map RatingsEntry.rank)
        = r.map some := by
  intro s
  induction s with
  | nil =>
      intro r h
      cases r with
      | nil => rfl
      | cons a t => simp at h
  | cons x xs ih =>
      intro r h
      cases r with
      | nil => simp at h
      | cons a t =>
          simp only [List.zipWith_cons_cons, List.map_cons]
          rw [ih t (by simpa using h)]

/-- Assigning ranks leaves every other field of the sorted prefix alone. -/
theorem map_zipWith_keep {β : Type} (g : RatingsEntry → β)
    (hg : ∀ e i, g { e with rank := some i } = g e) :
    ∀ (s : List RatingsEntry) (r : List ℕ),
      ((s.zipWith (fun e i => { e with rank := some i }) r).map g)
        = (s.take r.length).map g := by
  intro s
  induction s with
  | nil => intro r; simp
  | cons x xs ih =>
      intro r
      cases r with
      | nil => rfl
      | cons a t =>
          simp only [List.zipWith_cons_cons, List.map_cons, List.length_cons,
            List.take_succ_cons, hg]
          rw [ih t]

theorem length_sortDesc (l : List RatingsEntry) :
    (List.insertionSort rankGE l).length = l.length :=
  (List.perm_insertionSort rankGE l).length_eq

/-- The spec's end-to-end batch: composite scores `[85, 60, null]`. -/
def exBatch : List RatingsEntry :=
  [⟨"T1", some 85, Option.none⟩, ⟨"T2", some 60, Option.none⟩,
   ⟨"T3", Option.none, Option.none⟩]

/-- C4: the ranking step (stable descending sort on the `-999` null
sentinel, then 1-based enumeration) assigns the ranks `some 1, …, some N`
in output order — a contiguous permutation of `1..N` — to a batch carrying
exactly the input tickers; provided every non-null composite exceeds the
sentinel, every null-composite ticker sorts after all numeric ones; the
batch `[85, 60, null]` gets ranks `[1, 2, 3]` in that order. -/
theorem c4_ranking (l : List RatingsEntry)
    (hl : ∀ e ∈ l, ∀ q, e.composite_score = some q → (-999 : ℚ) < q) :
    ((rank_entries l).map RatingsEntry.rank = (List.range' 1 l.length).map some)
  ∧ ((rank_entries l).map RatingsEntry.ticker).Perm (l.map RatingsEntry.ticker)
  ∧ (rank_entries l).Pairwise
      (fun a b => a.composite_score = Option.none → b.composite_score = Option.none)
  ∧ rank_entries exBatch =
      [⟨"T1", some 85, some 1⟩, ⟨"T2", some 60, some 2⟩,
       ⟨"T3", Option.none, some 3⟩] := by
  refine ⟨?_, ?_, ?_, ?_⟩
  · unfold rank_entries
    rw [map_rank_zipWith]
    rw [length_sortDesc, List.length_range']
  · unfold rank_entries
    rw [map_zipWith_keep RatingsEntry.ticker (fun e i => rfl)]
    rw [List.length_range', ← length_sortDesc l, List.take_length]
    exact (List.perm_insertionSort rankGE l).map RatingsEntry.ticker
  · have hsor : List.Pairwise rankGE (List.insertionSort rankGE l) :=
      List.sorted_insertionSort rankGE l
    have hmem : ∀ e ∈ List.insertionSort rankGE l, e ∈ l :=
      fun e he => (List.perm_insertionSort rankGE l).mem_iff.mp he
    have hP : (List.insertionSort rankGE l).Pairwise
        (fun a b => a.composite_score = Option.none →
          b.composite_score = Option.none) := by
      refine List.Pairwise.imp_of_mem ?_ hsor
      intro a b ha hb hr hnone
      cases hb2 : b.composite_score with
      | none => rfl
      | some q =>
          exfalso
          have hq : (-999 : ℚ) < q := hl b (hmem b hb) q hb2
          have hka : sort_key a = -999 := by simp [sort_key, hnone]
          have hkb : sort_key b = q := by simp [sort_key, hb2]
          rw [rankGE, hka, hkb] at hr
          linarith
    have hmap : (rank_entries l).map RatingsEntry.composite_score
        = (List.insertionSort rankGE l).map RatingsEntry.composite_score := by
      unfold rank_entries
      rw [map_zipWith_keep RatingsEntry.composite_score (fun e i => rfl)]
      rw [List.length_range', ← length_sortDesc l, List.take_length]
    have h1 : ((rank_entries l).map RatingsEntry.composite_score).Pairwise
        (fun x y => x = Option.none → y = Option.none) := by
      rw [hmap]
      exact (List.pairwise_map).mpr hP
    exact (List.pairwise_map).mp h1
  · norm_num [rank_entries, exBatch, List.insertionSort, List.orderedInsert,
      rankGE, sort_key, List.range']

/-- C4 witness: the rank column of the spec's 3-ticker batch is
`[some 1, some 2, some 3]`. -/
theorem c4_ranking_witness :
    (rank_entries exBatch).map RatingsEntry.rank
      = (List.range' 1 exBatch.length).map some :=
  (c4_ranking exBatch (by
    intro e he q hq
    fin_cases he <;> simp_all
    all_goals linarith)).1
